import Mathlib

/-!
Verification of the MyPetParlor assistant's orchestration core, shallowly
embedded from the Python sources (`src/apps/chainlit/app.py`,
`src/agents/factory.py`, `src/apps/chainlit/custom_agents/base_client.py`).

Conventions of the embedding:
* Python strings are Lean `String`s; character classes (`\w`, `\s`,
  `str.lower`, `str.strip`) are modelled over ASCII, which covers every
  string the program and the properties use.
* Python functions that can raise are embedded as `Option`/`Except`
  returning functions; a `try/except` that swallows the error becomes the
  `none` branch.
* The JSON wire format (pydantic's `model_dump_json` /
  `model_validate_json`, backed by serde) is modelled by an executable
  renderer and a fuel-based parser over `List Char` following the JSON
  grammar; pydantic's lax string-to-number coercion and `\uXXXX` surrogate
  pairing are outside the fragment the program exercises and are not
  modelled.
-/

set_option maxRecDepth 100000

namespace MPP

/-! Character classes used by `is_echo_of_question`'s `normalize_text`
(`app.py` lines 772-777). Python's `re` classes `\s` and `\w` and
`str.lower`/`str.strip`, restricted to ASCII. -/

/-- ASCII whitespace as Python `str.strip` and `\s` see it. -/
def isPySpace (c : Char) : Bool :=
  c = ' ' || c = '\t' || c = '\n' || c = '\r' || c = '\x0b' || c = '\x0c'

/-- ASCII word characters, Python's `\w`: letters, digits, underscore. -/
def isWordChar (c : Char) : Bool :=
  ('a' ≤ c && c ≤ 'z') || ('A' ≤ c && c ≤ 'Z') || ('0' ≤ c && c ≤ '9') || c = '_'

/-- `str.lower` on one ASCII character. -/
def pyLowerChar (c : Char) : Char :=
  if 'A' ≤ c && c ≤ 'Z' then Char.ofNat (c.toNat + 32) else c

/-- `str.strip()`: drop leading and trailing whitespace. -/
def pyStrip (cs : List Char) : List Char :=
  ((cs.dropWhile isPySpace).reverse.dropWhile isPySpace).reverse

/-- `re.sub(r"\s+", " ", _)`: replace each maximal whitespace run by one
space. The flag records whether the previous kept character closed a run. -/
def collapseWsAux : Bool → List Char → List Char
  | _, [] => []
  | inWs, c :: cs =>
    if isPySpace c then
      if inWs then collapseWsAux true cs
      else ' ' :: collapseWsAux true cs
    else
      c :: collapseWsAux false cs

/-- `normalize_text` from `is_echo_of_question` (`app.py` 772-777):
lowercase, strip, delete characters that are neither word nor whitespace,
collapse whitespace runs to single spaces. No final strip, exactly as in
the source. -/
def normalize_text (s : String) : String :=
  String.mk (collapseWsAux false
    ((pyStrip (s.data.map pyLowerChar)).filter (fun c => isWordChar c || isPySpace c)))

/-- The clarification regexes of `app.py` 791-796, each expanded into the
literal prefixes it can match (every pattern is an anchored alternation of
literals, `(please |)?` being an optional literal):
`^can you (clarify|explain|elaborate|specify|provide more details)`,
`^(what|which|how|when|where|why) (exactly|specifically|precisely)`,
`^(do you want|are you looking for|would you like)`,
`^(could you|can you) (please |)?(clarify|explain|elaborate)`. -/
def clarificationPrefixes : List String :=
  ["can you clarify", "can you explain", "can you elaborate", "can you specify",
   "can you provide more details"]
  ++ (["what", "which", "how", "when", "where", "why"].flatMap fun w =>
      ["exactly", "specifically", "precisely"].map fun a => w ++ " " ++ a)
  ++ ["do you want", "are you looking for", "would you like"]
  ++ (["could you", "can you"].flatMap fun c =>
      ["", "please "].flatMap fun p =>
      ["clarify", "explain", "elaborate"].map fun v => c ++ " " ++ p ++ v)

/-- `re.match(pattern, norm_response)` over the clarification patterns:
an anchored match is a literal-prefix test after expansion. -/
def matchesClarification (normResponse : String) : Bool :=
  clarificationPrefixes.any (fun p => p.data.isPrefixOf normResponse.data)

/-- `is_echo_of_question` (`app.py` 758-802): flag a response that equals
the normalized question, extends it by fewer than 20 characters, or opens
with a clarification pattern. The three disjuncts are the source's three
early returns in order. -/
def is_echo_of_question (response question : String) : Bool :=
  (normalize_text response = normalize_text question)
  || ((normalize_text question).data.isPrefixOf (normalize_text response).data
      && (normalize_text response).data.length < (normalize_text question).data.length + 20)
  || matchesClarification (normalize_text response)

end MPP

namespace MPP

/-! Data models of `app.py` 51-78. A pydantic `float` field is embedded as
an exact decimal `DecFloat`: Python compares floats by value, and every
float the program serializes (15.5, 120.0) is an exact decimal, so the
dyadic-rounding layer is not modelled. -/

/-- An exact decimal, `mantissa / 10 ^ exp10`. Every value the embedding
builds goes through `DecFloat.norm`, so distinct representations of one
value never arise and structural equality is value equality, matching
Python float comparison. -/
structure DecFloat where
  mantissa : Int
  exp10 : Nat
deriving DecidableEq

/-- Strip factors of ten: the canonical form of `m / 10 ^ e`. -/
def DecFloat.normAux : Nat → Int → DecFloat
  | 0, m => ⟨m, 0⟩
  | e + 1, m => if m % 10 = 0 then DecFloat.normAux e (m / 10) else ⟨m, e + 1⟩

/-- The canonical `DecFloat` of value `m / 10 ^ e`. -/
def DecFloat.norm (m : Int) (e : Nat) : DecFloat := DecFloat.normAux e m

/-- Decimal digit test. -/
def isDigitChar (c : Char) : Bool := '0' ≤ c && c ≤ '9'

/-- The number a list of decimal digits denotes. -/
def digitsToNat (cs : List Char) : Nat :=
  cs.foldl (fun n c => 10 * n + (c.toNat - 48)) 0

/-- All characters are decimal digits. -/
def allDigits (cs : List Char) : Bool := cs.all isDigitChar

/-- Gregorian leap-year rule, as `datetime` applies it. -/
def isLeapYear (y : Nat) : Bool := y % 4 = 0 && (y % 100 ≠ 0 || y % 400 = 0)

/-- Days in a month, as `datetime` validates a constructed date. -/
def daysInMonth (y m : Nat) : Nat :=
  if m = 2 then (if isLeapYear y then 29 else 28)
  else if m = 4 || m = 6 || m = 9 || m = 11 then 30
  else 31

/-- Split a character list at every dash, keeping empty parts. -/
def splitDash : List Char → List (List Char)
  | [] => [[]]
  | c :: cs =>
    if c = '-' then [] :: splitDash cs
    else
      match splitDash cs with
      | [] => [[c]]
      | p :: ps => (c :: p) :: ps

/-- A month token CPython `strptime` accepts for `%m`
(regex `1[0-2]|0[1-9]|[1-9]`, anchored by the surrounding dashes):
one digit 1-9, or two digits with value 1-12. -/
def monthTokenOk (cs : List Char) : Bool :=
  allDigits cs
  && ((cs.length = 1 && 1 ≤ digitsToNat cs && digitsToNat cs ≤ 9)
      || (cs.length = 2 && 1 ≤ digitsToNat cs && digitsToNat cs ≤ 12))

/-- A day token CPython `strptime` accepts for `%d`
(regex `3[01]|[12]\d|0[1-9]|[1-9]`): one digit 1-9, or two digits 1-31. -/
def dayTokenOk (cs : List Char) : Bool :=
  allDigits cs
  && ((cs.length = 1 && 1 ≤ digitsToNat cs && digitsToNat cs ≤ 9)
      || (cs.length = 2 && 1 ≤ digitsToNat cs && digitsToNat cs ≤ 31))

/-- `Booking.validate_date_format` (`app.py` 60-67):
`datetime.strptime(v, "%Y-%m-%d")` succeeds. CPython compiles the format
to `\d\d\d\d-(month)-(day)` matched against the whole string, then builds
`datetime(year, month, day)`, which additionally requires `year ≥ 1` and a
day that exists in the month. -/
def validate_date_format (s : String) : Bool :=
  match splitDash s.data with
  | [y, m, d] =>
    y.length = 4 && allDigits y && 1 ≤ digitsToNat y
    && monthTokenOk m && dayTokenOk d
    && digitsToNat d ≤ daysInMonth (digitsToNat y) (digitsToNat m)
  | _ => false

/-- Strict `YYYY-MM-DD`: four-digit year, two-digit month, two-digit day. -/
def isZeroPaddedIsoDate (s : String) : Bool :=
  match splitDash s.data with
  | [y, m, d] => y.length = 4 && m.length = 2 && d.length = 2
      && allDigits y && allDigits m && allDigits d
  | _ => false

/-- The `Booking` model (`app.py` 51-67). -/
structure Booking where
  id : String
  date : String
  address : String
  weather : Option String := none
  arrival_time : Option String := none
  departure_time : Option String := none
deriving DecidableEq

/-- The `Schedule` model (`app.py` 69-73). -/
structure Schedule where
  total_distance : Option DecFloat := none
  total_duration : Option DecFloat := none
  bookings : List Booking := []
deriving DecidableEq

/-! JSON values and the parser/renderer pair standing for the serde layer
behind pydantic's `model_validate_json` / `model_dump_json`. -/

/-- A parsed JSON value; numbers carry their exact decimal value. -/
inductive Json where
  | null
  | bool (b : Bool)
  | num (q : DecFloat)
  | str (s : String)
  | arr (elems : List Json)
  | obj (members : List (String × Json))

/-- JSON insignificant whitespace. -/
def skipJsonWs (cs : List Char) : List Char :=
  cs.dropWhile (fun c => c = ' ' || c = '\t' || c = '\n' || c = '\r')

/-- Value of one hexadecimal digit. -/
def hexVal (c : Char) : Option Nat :=
  if '0' ≤ c && c ≤ '9' then some (c.toNat - 48)
  else if 'a' ≤ c && c ≤ 'f' then some (c.toNat - 87)
  else if 'A' ≤ c && c ≤ 'F' then some (c.toNat - 55)
  else none

/-- Body of a JSON string after the opening quote: characters until the
closing quote, with the standard escapes. Raw control characters are
rejected, as serde rejects them. -/
def parseStringBody : Nat → List Char → Option (List Char × List Char)
  | 0, _ => none
  | _, [] => none
  | f + 1, c :: rest =>
    if c = '"' then some ([], rest)
    else if c = '\\' then
      match rest with
      | [] => none
      | e :: rest1 =>
        let esc : Option (Char × List Char) :=
          if e = '"' then some ('"', rest1)
          else if e = '\\' then some ('\\', rest1)
          else if e = '/' then some ('/', rest1)
          else if e = 'n' then some ('\n', rest1)
          else if e = 't' then some ('\t', rest1)
          else if e = 'r' then some ('\r', rest1)
          else if e = 'b' then some ('\x08', rest1)
          else if e = 'f' then some ('\x0c', rest1)
          else if e = 'u' then
            match rest1 with
            | h1 :: h2 :: h3 :: h4 :: rest2 =>
              match hexVal h1, hexVal h2, hexVal h3, hexVal h4 with
              | some a, some b, some c2, some d =>
                some (Char.ofNat (((a * 16 + b) * 16 + c2) * 16 + d), rest2)
              | _, _, _, _ => none
            | _ => none
          else none
        match esc with
        | some (ch, rest2) =>
          match parseStringBody f rest2 with
          | some (s, r2) => some (ch :: s, r2)
          | none => none
        | none => none
    else if c.toNat < 32 then none
    else
      match parseStringBody f rest with
      | some (s, r2) => some (c :: s, r2)
      | none => none

/-- Fraction part of a JSON number: digits after a dot, or nothing. -/
def parseFrac : List Char → Option (List Char × List Char)
  | '.' :: r =>
    let ds := r.takeWhile isDigitChar
    if ds.isEmpty then none else some (ds, r.dropWhile isDigitChar)
  | cs => some ([], cs)

/-- Exponent part of a JSON number: `(negative, digits, rest)`. -/
def parseExp : List Char → Option (Bool × List Char × List Char)
  | [] => some (false, [], [])
  | c :: r =>
    if c = 'e' || c = 'E' then
      match r with
      | '-' :: r2 =>
        let ds := r2.takeWhile isDigitChar
        if ds.isEmpty then none else some (true, ds, r2.dropWhile isDigitChar)
      | '+' :: r2 =>
        let ds := r2.takeWhile isDigitChar
        if ds.isEmpty then none else some (false, ds, r2.dropWhile isDigitChar)
      | r2 =>
        let ds := r2.takeWhile isDigitChar
        if ds.isEmpty then none else some (false, ds, r2.dropWhile isDigitChar)
    else some (false, [], c :: r)

/-- A JSON number per the RFC grammar: optional minus, integer part
without superfluous leading zero, optional fraction and exponent. -/
def parseNumber (cs : List Char) : Option (DecFloat × List Char) :=
  let (neg, cs1) :=
    match cs with
    | '-' :: r => (true, r)
    | _ => (false, cs)
  let ds := cs1.takeWhile isDigitChar
  let cs2 := cs1.dropWhile isDigitChar
  if ds.isEmpty then none
  else if 1 < ds.length && ds.headD '0' = '0' then none
  else
    match parseFrac cs2 with
    | none => none
    | some (fds, cs3) =>
      match parseExp cs3 with
      | none => none
      | some (negExp, eds, cs4) =>
        let mant : Int := (digitsToNat (ds ++ fds) : Int)
        let mant : Int := if neg then -mant else mant
        let d : DecFloat :=
          if negExp then DecFloat.norm mant (fds.length + digitsToNat eds)
          else DecFloat.norm (mant * ((10 : Int) ^ digitsToNat eds)) fds.length
        some (d, cs4)

mutual

/-- A JSON value and the rest of the input; fuel bounds the recursion. -/
def parseVal : Nat → List Char → Option (Json × List Char)
  | 0, _ => none
  | f + 1, cs =>
    match skipJsonWs cs with
    | 'n' :: 'u' :: 'l' :: 'l' :: r => some (Json.null, r)
    | 't' :: 'r' :: 'u' :: 'e' :: r => some (Json.bool true, r)
    | 'f' :: 'a' :: 'l' :: 's' :: 'e' :: r => some (Json.bool false, r)
    | '"' :: r =>
      (match parseStringBody (r.length + 1) r with
       | some (s, rest) => some (Json.str (String.mk s), rest)
       | none => none)
    | '[' :: r =>
      (match skipJsonWs r with
       | ']' :: r2 => some (Json.arr [], r2)
       | _ =>
         match parseElems f r with
         | some (es, rest) => some (Json.arr es, rest)
         | none => none)
    | '\x7b' :: r =>
      (match skipJsonWs r with
       | '\x7d' :: r2 => some (Json.obj [], r2)
       | _ =>
         match parseMembers f r with
         | some (ms, rest) => some (Json.obj ms, rest)
         | none => none)
    | cs2 =>
      match parseNumber cs2 with
      | some (q, rest) => some (Json.num q, rest)
      | none => none

/-- Comma-separated array elements up to the closing bracket. -/
def parseElems : Nat → List Char → Option (List Json × List Char)
  | 0, _ => none
  | f + 1, cs =>
    match parseVal f cs with
    | none => none
    | some (v, rest) =>
      match skipJsonWs rest with
      | ',' :: r2 =>
        (match parseElems f r2 with
         | some (es, rest2) => some (v :: es, rest2)
         | none => none)
      | ']' :: r2 => some ([v], r2)
      | _ => none

/-- Comma-separated object members up to the closing brace. -/
def parseMembers : Nat → List Char → Option (List (String × Json) × List Char)
  | 0, _ => none
  | f + 1, cs =>
    match skipJsonWs cs with
    | '"' :: r =>
      (match parseStringBody (r.length + 1) r with
       | none => none
       | some (k, rest) =>
         match skipJsonWs rest with
         | ':' :: r2 =>
           (match parseVal f r2 with
            | none => none
            | some (v, rest2) =>
              match skipJsonWs rest2 with
              | ',' :: r3 =>
                (match parseMembers f r3 with
                 | some (ms, rest3) => some ((String.mk k, v) :: ms, rest3)
                 | none => none)
              | '\x7d' :: r3 => some ([(String.mk k, v)], r3)
              | _ => none)
         | _ => none)
    | _ => none

end

/-- Parse a whole string as one JSON document (trailing whitespace only). -/
def json_loads (s : String) : Option Json :=
  match parseVal (2 * s.data.length + 8) s.data with
  | some (j, rest) => if skipJsonWs rest = [] then some j else none
  | none => none

/-! Validation of a parsed JSON value against the pydantic models. Object
keys repeat with the last occurrence winning, as for a Python dict built
from JSON. Extra keys are ignored (pydantic's default). -/

/-- The value of a key, last occurrence winning. -/
def lookupField (ms : List (String × Json)) (k : String) : Option Json :=
  match ms with
  | [] => none
  | (k1, v) :: rest =>
    match lookupField rest k with
    | some r => some r
    | none => if k1 = k then some v else none

/-- A required `str` field: present and a JSON string. -/
def fieldStr (v : Option Json) : Option String :=
  match v with
  | some (Json.str s) => some s
  | _ => none

/-- An `Optional[str] = None` field: absent or null give `none`;
a string gives `some`; any other shape fails validation. -/
def fieldOptStr (v : Option Json) : Option (Option String) :=
  match v with
  | none => some none
  | some Json.null => some none
  | some (Json.str s) => some (some s)
  | _ => none

/-- An `Optional[float] = None` field: absent or null give `none`;
a number gives its value; any other shape fails validation. -/
def fieldOptFloat (v : Option Json) : Option (Option DecFloat) :=
  match v with
  | none => some none
  | some Json.null => some none
  | some (Json.num q) => some (some q)
  | _ => none

/-- Validate one booking object (`Booking` plus its date validator):
every declared field validates and the date passes
`validate_date_format`, else the model raises and validation fails. -/
def Booking.validate (j : Json) : Option Booking :=
  match j with
  | Json.obj ms =>
    match fieldStr (lookupField ms "id"), fieldStr (lookupField ms "date"),
        fieldStr (lookupField ms "address"), fieldOptStr (lookupField ms "weather"),
        fieldOptStr (lookupField ms "arrival_time"),
        fieldOptStr (lookupField ms "departure_time") with
    | some bid, some date, some address, some weather, some arrival, some departure =>
      if validate_date_format date then
        some ⟨bid, date, address, weather, arrival, departure⟩
      else none
    | _, _, _, _, _, _ => none
  | _ => none

/-- Validate every element of the `bookings` array in order. -/
def validateBookingList : List Json → Option (List Booking)
  | [] => some []
  | j :: js =>
    match Booking.validate j, validateBookingList js with
    | some b, some bs => some (b :: bs)
    | _, _ => none

/-- The `bookings: List[Booking]` field: an absent key takes the
`default_factory=list` default; only a JSON array of valid bookings
validates otherwise. -/
def scheduleBookingsField : Option Json → Option (List Booking)
  | none => some []
  | some (Json.arr xs) => validateBookingList xs
  | some _ => none

/-- `Schedule.model_validate_json` after the JSON parse: field-by-field
validation of the top-level object. -/
def Schedule.validate (j : Json) : Option Schedule :=
  match j with
  | Json.obj ms =>
    match fieldOptFloat (lookupField ms "total_distance"),
        fieldOptFloat (lookupField ms "total_duration"),
        scheduleBookingsField (lookupField ms "bookings") with
    | some td, some tdur, some bs => some ⟨td, tdur, bs⟩
    | _, _, _ => none
  | _ => none

/-- `parse_schedule_data` (`app.py` 804-823): try the JSON parse and the
`Schedule` validation; any failure is swallowed and yields `None`. Total
over all strings by construction. -/
def parse_schedule_data (content : String) : Option Schedule :=
  match json_loads content with
  | some j => Schedule.validate j
  | none => none

/-! Rendering, standing for pydantic v2's `model_dump_json`: compact
separators, fields in declaration order, `None` as `null`, floats in
shortest-decimal form with a forced fractional part. -/

/-- One decimal digit as a character. -/
def digitChar (n : Nat) : Char := Char.ofNat (48 + n % 10)

/-- Decimal digits of a number, most significant first; fuel-recursive. -/
def natDigitsAux : Nat → Nat → List Char
  | 0, _ => []
  | f + 1, n =>
    if n < 10 then [digitChar n]
    else natDigitsAux f (n / 10) ++ [digitChar (n % 10)]

/-- Decimal rendering of a natural number. -/
def natToDecimal (n : Nat) : List Char := natDigitsAux (n + 1) n

/-- Shortest-decimal float rendering of a canonical `DecFloat`; an
integral value still prints a `.0` as `repr(float)` does. -/
def renderFloat (d : DecFloat) : String :=
  let sign := if d.mantissa < 0 then "-" else ""
  if d.exp10 = 0 then sign ++ String.mk (natToDecimal d.mantissa.natAbs) ++ ".0"
  else
    let ds := natToDecimal d.mantissa.natAbs
    let ds := List.replicate (d.exp10 + 1 - ds.length) '0' ++ ds
    sign ++ String.mk (ds.take (ds.length - d.exp10)) ++ "."
      ++ String.mk (ds.drop (ds.length - d.exp10))

/-- Lowercase hexadecimal digit. -/
def hexDigitChar (n : Nat) : Char :=
  if n < 10 then Char.ofNat (48 + n) else Char.ofNat (87 + (n - 10))

/-- JSON escaping of one character, as serde writes strings. -/
def escapeJsonChar (c : Char) : List Char :=
  if c = '"' then ['\\', '"']
  else if c = '\\' then ['\\', '\\']
  else if c = '\n' then ['\\', 'n']
  else if c = '\t' then ['\\', 't']
  else if c = '\r' then ['\\', 'r']
  else if c = '\x08' then ['\\', 'b']
  else if c = '\x0c' then ['\\', 'f']
  else if c.toNat < 32 then
    ['\\', 'u', '0', '0', hexDigitChar (c.toNat / 16), hexDigitChar (c.toNat % 16)]
  else [c]

/-- A JSON string literal. -/
def strJson (s : String) : String :=
  "\"" ++ String.mk (s.data.flatMap escapeJsonChar) ++ "\""

/-- An `Optional[str]` value in a dump. -/
def optStrJson : Option String → String
  | none => "null"
  | some s => strJson s

/-- An `Optional[float]` value in a dump. -/
def optFloatJson : Option DecFloat → String
  | none => "null"
  | some q => renderFloat q

/-- One booking inside `Schedule.model_dump_json`, fields in declaration
order. -/
def Booking.dumpJson (b : Booking) : String :=
  "\x7b\"id\":" ++ strJson b.id
  ++ ",\"date\":" ++ strJson b.date
  ++ ",\"address\":" ++ strJson b.address
  ++ ",\"weather\":" ++ optStrJson b.weather
  ++ ",\"arrival_time\":" ++ optStrJson b.arrival_time
  ++ ",\"departure_time\":" ++ optStrJson b.departure_time
  ++ "\x7d"

/-- `schedule.model_dump_json()` as `create_schedule` calls it. -/
def Schedule.model_dump_json (s : Schedule) : String :=
  "\x7b\"total_distance\":" ++ optFloatJson s.total_distance
  ++ ",\"total_duration\":" ++ optFloatJson s.total_duration
  ++ ",\"bookings\":[" ++ String.intercalate "," (s.bookings.map Booking.dumpJson)
  ++ "]\x7d"

/-- The `Schedule` literal built inside `SchedulingPlugin.create_schedule`
(`app.py` 100-121): `total_distance=15.5` is `DecFloat.norm 155 1` and
`total_duration=120` is coerced to the float `120.0`, `DecFloat.norm 120 0`. -/
def pluginSchedule : Schedule where
  total_distance := some (DecFloat.norm 155 1)
  total_duration := some (DecFloat.norm 120 0)
  bookings :=
    [ ⟨"booking1", "2024-03-20", "123 Main St",
        some "Sunny", some "09:00", some "10:00"⟩
    , ⟨"booking2", "2024-03-20", "456 Oak Ave",
        some "Cloudy", some "11:00", some "12:30"⟩ ]

namespace SchedulingPlugin

/-- `SchedulingPlugin.create_schedule` (`app.py` 87-122): ignores the
request and returns the serialized placeholder schedule. -/
def create_schedule (request : String) : String :=
  pluginSchedule.model_dump_json

end SchedulingPlugin

/-! The streaming loop of the `main` message handler (`app.py` 650-682):
chunk classification, free-text accumulation, and the final flush with
its fallback. -/

/-- A message delivered to the chat transport during one turn. -/
inductive Msg where
  | schedule (s : Schedule)
  | text (t : String)
  | fallback
deriving DecidableEq

/-- The loop state: the accumulated free-text answer and the messages
sent so far. -/
structure StreamState where
  answer : String
  msgs : List Msg
deriving DecidableEq

/-- One iteration of `async for content in triage_agent.invoke_stream`
(`app.py` 654-673): skip empty chunks (`if content.content:`), skip echo
chunks, emit a validated schedule as a structured message, otherwise
append to the free-text answer. -/
def streamStep (utterance : String) (st : StreamState) (chunk : String) : StreamState :=
  if chunk = "" then st
  else if is_echo_of_question chunk utterance then st
  else
    match parse_schedule_data chunk with
    | some sched => ⟨st.answer, st.msgs ++ [Msg.schedule sched]⟩
    | none => ⟨st.answer ++ chunk, st.msgs⟩

/-- The final flush (`app.py` 675-682): send the accumulated answer when
it is nonempty and no echo, otherwise send the canned fallback. -/
def finalizeTurn (utterance : String) (st : StreamState) : List Msg :=
  if st.answer ≠ "" && !is_echo_of_question st.answer utterance then
    st.msgs ++ [Msg.text st.answer]
  else
    st.msgs ++ [Msg.fallback]

/-- The whole streaming section of a turn over the chunk sequence. -/
def handle_turn (utterance : String) (chunks : List String) : List Msg :=
  finalizeTurn utterance (chunks.foldl (streamStep utterance) ⟨"", []⟩)

/-! The agent factory (`src/agents/factory.py`) and the startup
environment guards (`app.py` 41-45, `base_client.py` 16-48).
`agent.initialize()` performs remote setup only and does not change the
factory's cache, so it has no footprint in this state model. -/

/-- A created agent handle, carrying its connection string. -/
inductive MPPAgent where
  | smartScheduling (connStr : String)
  | smartImporter (connStr : String)
deriving DecidableEq

/-- The factory's per-process cache `self._agents`. -/
structure AgentFactory where
  agents : List (String × MPPAgent) := []
deriving DecidableEq

/-- Environment failures the embedded code can raise. -/
inductive EnvError where
  | connStringUnset
  | modelDeploymentUnset
deriving DecidableEq

/-- Python dict lookup over the cache's entries. -/
def lookupAgent (t : String) : List (String × MPPAgent) → Option MPPAgent
  | [] => none
  | (k, v) :: rest => if k = t then some v else lookupAgent t rest

namespace AgentFactory

/-- `AgentFactory._create_agent` (`factory.py` 27-40): the two known types
require `AZURE_AI_PROJECT_CONNECTION_STRING` (a missing or empty value —
Python falsiness — raises); an unknown type yields `None`. -/
def createAgentOfType (env : Option String) (agent_type : String) :
    Except EnvError (Option MPPAgent) :=
  if agent_type = "smart_scheduling" then
    match env with
    | none => .error .connStringUnset
    | some conn =>
      if conn = "" then .error .connStringUnset else .ok (some (.smartScheduling conn))
  else if agent_type = "smart_importer" then
    match env with
    | none => .error .connStringUnset
    | some conn =>
      if conn = "" then .error .connStringUnset else .ok (some (.smartImporter conn))
  else .ok none

/-- `AgentFactory.get_agent` (`factory.py` 16-25): serve from the cache,
else create, cache and initialize. The result's last component counts the
`_create_agent` calls this invocation performed. -/
def get_agent (env : Option String) (f : AgentFactory) (agent_type : String) :
    Except EnvError (Option MPPAgent × AgentFactory × Nat) :=
  match lookupAgent agent_type f.agents with
  | some a => .ok (some a, f, 0)
  | none =>
    match createAgentOfType env agent_type with
    | .error e => .error e
    | .ok none => .ok (none, f, 1)
    | .ok (some a) => .ok (some a, ⟨f.agents ++ [(agent_type, a)]⟩, 1)

/-- `AgentFactory.get_available_agents` (`factory.py` 42-44). -/
def get_available_agents : List String := ["smart_scheduling", "smart_importer"]

end AgentFactory

/-- The import-time guard of `app.py` 41-45: read
`AZURE_AI_AGENT_MODEL_DEPLOYMENT_NAME` and abort the process
(`raise EnvironmentError`) when it is unset (or empty, by Python
falsiness) before any handler can run. -/
def appStartup (envModel : Option String) : Except EnvError String :=
  match envModel with
  | none => .error .modelDeploymentUnset
  | some m => if m = "" then .error .modelDeploymentUnset else .ok m

/-- The argument record an agent-creation call sends to the runtime. -/
structure AgentArgs where
  model : String
  name : String
  description : String
  instructions : String
  tools : List String := []
deriving DecidableEq

namespace BaseClient

/-- `BaseClient.create_agent` (`base_client.py` 18-48): guard on the
deployment name read from the environment, then assemble the creation
arguments for the runtime call. -/
def create_agent (agentModel : Option String) (name description instructions : String)
    (tools : List String) : Except EnvError AgentArgs :=
  match agentModel with
  | none => .error .modelDeploymentUnset
  | some m =>
    if m = "" then .error .modelDeploymentUnset
    else .ok ⟨m, name, description, instructions, tools⟩

end BaseClient

end MPP

namespace MPP

/-- C1: a response equal to the utterance after normalization is flagged
degenerate by `is_echo_of_question`; in particular the capitalised echo of
"what are my bookings today" is flagged while "You have 3 bookings today: ..."
is not. -/
theorem echo_on_normalized_equality :
    (∀ response question : String,
        normalize_text response = normalize_text question →
        is_echo_of_question response question = true)
    ∧ is_echo_of_question "What are my bookings today" "what are my bookings today" = true
    ∧ is_echo_of_question "You have 3 bookings today: ..." "what are my bookings today" = false := by
  refine ⟨fun r q h => ?_, by decide, by decide⟩
  simp [is_echo_of_question, h]

/-- C2 (amended): a response whose normalized form starts with the
normalized utterance and is longer by strictly fewer than 20 characters is
flagged degenerate; 20 is the hard-coded slack in `is_echo_of_question`. -/
theorem echo_on_prefix_slack (response question : String)
    (hpre : (normalize_text question).data.isPrefixOf (normalize_text response).data = true)
    (hlen : (normalize_text response).data.length < (normalize_text question).data.length + 20) :
    is_echo_of_question response question = true := by
  have h2 : decide ((normalize_text response).data.length
      < (normalize_text question).data.length + 20) = true := decide_eq_true hlen
  simp [is_echo_of_question, hpre, h2]
  exact Or.inl (Or.inr hlen)

/-- C2 witness: "what are my bookings today for team A" extends the
utterance by 11 normalized characters and is flagged. -/
theorem echo_on_prefix_slack_witness :
    is_echo_of_question "what are my bookings today for team A" "what are my bookings today" = true :=
  echo_on_prefix_slack "what are my bookings today for team A" "what are my bookings today"
    (by decide) (by decide)

/-- C2 counterexample: a response with exactly 20 extra normalized
characters over the utterance is a prefix superset by at most 20 characters,
yet `is_echo_of_question` does not flag it (the source tests
`len(norm_response) < len(norm_question) + 20`, a strict bound). -/
theorem echo_twenty_extra_not_flagged :
    (normalize_text "a").data.isPrefixOf (normalize_text "abbbbbbbbbbbbbbbbbbbb").data = true
    ∧ (normalize_text "abbbbbbbbbbbbbbbbbbbb").data.length = (normalize_text "a").data.length + 20
    ∧ is_echo_of_question "abbbbbbbbbbbbbbbbbbbb" "a" = false := by
  decide

/-- C3: a response whose normalized form opens with one of the configured
clarifying-question patterns (nothing preceding the match, since the
patterns are anchored) is flagged degenerate; in particular
"Could you clarify what date range you mean?". -/
theorem echo_on_clarification_pattern :
    (∀ response question : String,
        matchesClarification (normalize_text response) = true →
        is_echo_of_question response question = true)
    ∧ is_echo_of_question "Could you clarify what date range you mean?"
        "what are my bookings today" = true := by
  refine ⟨fun r q h => ?_, by decide⟩
  simp [is_echo_of_question, h]

/-- One stream iteration never emits the fallback message. -/
theorem streamStep_count_fallback (u : String) (st : StreamState) (c : String) :
    ((streamStep u st c).msgs).count Msg.fallback = st.msgs.count Msg.fallback := by
  unfold streamStep
  split
  · rfl
  · split
    · rfl
    · split
      · simp [List.count_append, List.count_cons]
      · rfl

/-- The whole stream loop never emits the fallback message. -/
theorem streamFold_count_fallback (u : String) (chunks : List String) (st : StreamState) :
    ((chunks.foldl (streamStep u) st).msgs).count Msg.fallback = st.msgs.count Msg.fallback := by
  induction chunks generalizing st with
  | nil => rfl
  | cons c cs ih => rw [List.foldl_cons, ih, streamStep_count_fallback]

/-- C4: when the accumulated streamed answer of a turn is empty or is an
echo of the utterance, the turn emits the canned fallback exactly once and
never ends with zero messages. -/
theorem fallback_exactly_one (utterance : String) (chunks : List String)
    (h : (chunks.foldl (streamStep utterance) ⟨"", []⟩).answer = ""
        ∨ is_echo_of_question (chunks.foldl (streamStep utterance) ⟨"", []⟩).answer
            utterance = true) :
    (handle_turn utterance chunks).count Msg.fallback = 1
      ∧ handle_turn utterance chunks ≠ [] := by
  unfold handle_turn finalizeTurn
  have hcond : (decide ((chunks.foldl (streamStep utterance) ⟨"", []⟩).answer ≠ "")
      && !is_echo_of_question (chunks.foldl (streamStep utterance) ⟨"", []⟩).answer
            utterance) = false := by
    rcases h with h | h
    · simp [h]
    · simp [h]
  simp only [hcond, Bool.false_eq_true, if_false]
  refine ⟨?_, by simp⟩
  rw [List.count_append, streamFold_count_fallback]
  simp [List.count_cons]

/-- C4 witness: a turn whose only chunk echoes the utterance ends in
exactly one fallback message. -/
theorem fallback_exactly_one_witness :
    (handle_turn "what are my bookings today" ["What are my bookings today"]).count
        Msg.fallback = 1
    ∧ handle_turn "what are my bookings today" ["What are my bookings today"] ≠ [] :=
  fallback_exactly_one "what are my bookings today" ["What are my bookings today"]
    (Or.inl (by decide))

/-- C5: serializing the schedule `create_schedule` builds and parsing it
back with `parse_schedule_data` reproduces every field, and the streaming
loop emits that chunk as one structured schedule element, leaving the
free-text buffer untouched. -/
theorem schedule_serialize_parse_roundtrip :
    ∀ request : String,
      parse_schedule_data (SchedulingPlugin.create_schedule request) = some pluginSchedule
      ∧ streamStep "plan my route for tomorrow" ⟨"", []⟩
          (SchedulingPlugin.create_schedule request)
          = ⟨"", [Msg.schedule pluginSchedule]⟩ := by
  intro request
  unfold SchedulingPlugin.create_schedule
  exact ⟨by decide, by decide⟩

/-- C6: a nonempty, non-echo chunk that does not validate as a schedule is
appended to the free-text buffer and emits nothing
(`parse_schedule_data` is total by construction: the `try/except` of the
source is its `none` branch). -/
theorem invalid_chunk_streams_as_text (st : StreamState) (chunk utterance : String)
    (hne : chunk ≠ "") (hecho : is_echo_of_question chunk utterance = false)
    (hparse : parse_schedule_data chunk = none) :
    streamStep utterance st chunk = ⟨st.answer ++ chunk, st.msgs⟩ := by
  simp [streamStep, hne, hecho, hparse]

/-- C6 witness: an ordinary prose chunk is buffered as free text. -/
theorem invalid_chunk_streams_as_text_witness :
    streamStep "what are my bookings today" ⟨"", []⟩ "Here are your bookings for today."
      = ⟨"Here are your bookings for today.", []⟩ :=
  invalid_chunk_streams_as_text ⟨"", []⟩ "Here are your bookings for today."
    "what are my bookings today" (by decide) (by decide) (by decide)

/-- A key missing from the cache is found after appending its entry. -/
theorem lookupAgent_append_self (t : String) (a : MPPAgent) (l : List (String × MPPAgent))
    (h : lookupAgent t l = none) : lookupAgent t (l ++ [(t, a)]) = some a := by
  induction l with
  | nil => simp [lookupAgent]
  | cons p rest ih =>
    obtain ⟨k, v⟩ := p
    simp only [List.cons_append, lookupAgent] at h ⊢
    by_cases hk : k = t
    · simp [hk] at h
    · rw [if_neg hk] at h ⊢
      exact ih h

/-- C7: for a supported agent type not yet cached, the first `get_agent`
creates the agent once; the second call returns the same agent object from
the per-process cache with zero `_create_agent` calls. -/
theorem get_agent_cached_once (env : Option String) (conn agent_type : String)
    (f : AgentFactory)
    (henv : env = some conn) (hconn : conn ≠ "")
    (htype : agent_type = "smart_scheduling" ∨ agent_type = "smart_importer")
    (hmiss : lookupAgent agent_type f.agents = none) :
    ∃ (a : MPPAgent) (f2 : AgentFactory),
      AgentFactory.get_agent env f agent_type = Except.ok (some a, f2, 1)
      ∧ AgentFactory.get_agent env f2 agent_type = Except.ok (some a, f2, 0) := by
  subst henv
  rcases htype with rfl | rfl
  · refine ⟨MPPAgent.smartScheduling conn,
      ⟨f.agents ++ [("smart_scheduling", MPPAgent.smartScheduling conn)]⟩, ?_, ?_⟩
    · simp [AgentFactory.get_agent, AgentFactory.createAgentOfType, hmiss, hconn]
    · simp [AgentFactory.get_agent, lookupAgent_append_self _ _ _ hmiss]
  · refine ⟨MPPAgent.smartImporter conn,
      ⟨f.agents ++ [("smart_importer", MPPAgent.smartImporter conn)]⟩, ?_, ?_⟩
    · simp [AgentFactory.get_agent, AgentFactory.createAgentOfType, hmiss, hconn]
    · simp [AgentFactory.get_agent, lookupAgent_append_self _ _ _ hmiss]

/-- C7 witness: one creation for `smart_scheduling` on an empty cache,
then a cache hit returning the same handle. -/
theorem get_agent_cached_once_witness :
    ∃ (a : MPPAgent) (f2 : AgentFactory),
      AgentFactory.get_agent (some "Endpoint=proj") ⟨[]⟩ "smart_scheduling"
        = Except.ok (some a, f2, 1)
      ∧ AgentFactory.get_agent (some "Endpoint=proj") f2 "smart_scheduling"
        = Except.ok (some a, f2, 0) :=
  get_agent_cached_once (some "Endpoint=proj") "Endpoint=proj" "smart_scheduling" ⟨[]⟩
    rfl (by decide) (Or.inl rfl) rfl

/-- C8: with the model deployment identifier unset, the import-time guard
fails instead of starting the process, and `BaseClient.create_agent` also
refuses to assemble a creation call without it. -/
theorem missing_model_fails_startup :
    appStartup none = Except.error EnvError.modelDeploymentUnset
    ∧ (∀ m : String, appStartup none ≠ Except.ok m)
    ∧ (∀ name description instructions : String, ∀ tools : List String,
        BaseClient.create_agent none name description instructions tools
          = Except.error EnvError.modelDeploymentUnset) :=
  ⟨rfl, fun _ h => by simp [appStartup] at h, fun _ _ _ _ => rfl⟩

/-- A booking that validated has a date the date validator accepts. -/
theorem booking_validate_date (j : Json) (b : Booking)
    (h : Booking.validate j = some b) : validate_date_format b.date = true := by
  unfold Booking.validate at h
  split at h <;> try exact Option.noConfusion h
  split at h <;> try exact Option.noConfusion h
  split at h
  · cases h
    assumption
  · exact Option.noConfusion h

/-- Every booking of a validated bookings array has an accepted date. -/
theorem validateBookingList_dates (xs : List Json) (bs : List Booking)
    (h : validateBookingList xs = some bs) :
    ∀ b ∈ bs, validate_date_format b.date = true := by
  induction xs generalizing bs with
  | nil =>
    unfold validateBookingList at h
    cases h
    intro b hb
    cases hb
  | cons j js ih =>
    unfold validateBookingList at h
    split at h <;> try exact Option.noConfusion h
    rename_i b1 bs1 hb1 hbs1
    cases h
    intro b hb
    rcases List.mem_cons.mp hb with rfl | hb2
    · exact booking_validate_date j b hb1
    · exact ih bs1 hbs1 b hb2

/-- Every booking of a validated `bookings` field has an accepted date. -/
theorem scheduleBookingsField_dates (v : Option Json) (bs : List Booking)
    (h : scheduleBookingsField v = some bs) :
    ∀ b ∈ bs, validate_date_format b.date = true := by
  unfold scheduleBookingsField at h
  split at h <;> try exact Option.noConfusion h
  · cases h
    intro b hb
    simp at hb
  · exact validateBookingList_dates _ _ h

/-- C10 (amended): every schedule the stream emits as a structured payload
contains only bookings whose date `strptime("%Y-%m-%d")` accepts — a
four-digit year and a real calendar date, with one- or two-digit month and
day; zero padding is not required. -/
theorem emitted_dates_pass_validator (chunk : String) (sched : Schedule)
    (h : parse_schedule_data chunk = some sched) :
    ∀ b ∈ sched.bookings, validate_date_format b.date = true := by
  unfold parse_schedule_data at h
  split at h <;> try exact Option.noConfusion h
  unfold Schedule.validate at h
  split at h <;> try exact Option.noConfusion h
  split at h <;> try exact Option.noConfusion h
  rename_i td tdur bs htd htdur hbs
  cases h
  exact scheduleBookingsField_dates _ _ hbs

/-- C10 witness: the date of the first booking of the plugin's own
serialized schedule passes the validator. -/
theorem emitted_dates_pass_validator_witness :
    validate_date_format "2024-03-20" = true := by
  have h := emitted_dates_pass_validator (SchedulingPlugin.create_schedule "plan")
    pluginSchedule (by decide)
  exact h ⟨"booking1", "2024-03-20", "123 Main St",
    some "Sunny", some "09:00", some "10:00"⟩ (by decide)

/-- C10 counterexample: the validator accepts `"2024-3-5"`, which is not
zero-padded `YYYY-MM-DD`, and a payload carrying it validates as a
schedule, so it is emitted structurally rather than rejected. -/
theorem nonpadded_date_accepted :
    validate_date_format "2024-3-5" = true
    ∧ isZeroPaddedIsoDate "2024-3-5" = false
    ∧ parse_schedule_data
        "\x7b\"bookings\":[\x7b\"id\":\"b1\",\"date\":\"2024-3-5\",\"address\":\"123 Main St\"\x7d]\x7d"
        = some ⟨none, none, [⟨"b1", "2024-3-5", "123 Main St", none, none, none⟩]⟩ := by
  refine ⟨by decide, by decide, by decide⟩

end MPP
